import Mathlib

/-!
# Verification of the RAG-Chatbot ingestion-and-query pipeline

Shallow embedding of `src/app/app.py` (the whole program logic; `src/app/ui.py`
is a thin Streamlit wrapper around `query_documents`).

Modelling conventions:
* Calls to external services (Google embedding/chat endpoints, Supabase RPC)
  are passed in as explicit outcomes: `Except String α`, where
  `Except.error e` stands for the Python call raising an exception with
  message `e`, and `Except.ok v` for a successful response `v`.
* Python floats are modelled as rationals (`ℚ`).
* A Python function that may raise is modelled as returning `Except String α`;
  an `Except.error` result means the exception propagates out of the function.
* Dictionaries coming back from the Supabase RPC are modelled as a structure
  with `Option` fields (`none` = key absent), matching the `dict.get` /
  `dict[...]` access pattern in the source.
-/

/-- Table name constant (`TABLE_NAME = "pdf_pages"`, app.py line 19). -/
def TABLE_NAME : String := "pdf_pages"

/-- The fixed embedding-model identifier used by the ingestion loop
(`EMBEDDING_MODEL = "text-embedding-004"`, app.py line 56). -/
def EMBEDDING_MODEL : String := "text-embedding-004"

/-- The embedding-model identifier literal used on the query path
(`model="text-embedding-004"`, app.py line 111). -/
def queryEmbedModelId : String := "text-embedding-004"

/-- A row returned by the `match_documents_hybrid` RPC, as consumed by the
context-building loop of `query_documents` (app.py lines 134-141).
`Option` fields model possibly-missing dictionary keys. -/
structure MatchRow where
  pdf_name : Option String
  page_number : Option Int
  combined_score : Option ℚ
  content : Option String
deriving DecidableEq, Repr

/-- Left-pad a natural number below 1000 to three digits, for the fractional
part of Python's `:.3f` fixed-point formatting. -/
def pad3 (n : ℕ) : String :=
  if n < 10 then "00" ++ toString n
  else if n < 100 then "0" ++ toString n
  else toString n

/-- Render a signed count of thousandths as a fixed-point decimal with three
fractional digits. -/
def fmtThousandths (m : ℤ) : String :=
  if m < 0 then
    "-" ++ toString ((-m) / 1000) ++ "." ++ pad3 (((-m) % 1000).toNat)
  else
    toString (m / 1000) ++ "." ++ pad3 ((m % 1000).toNat)

/-- Python's `f"{score:.3f}"` fixed-point formatting (app.py line 139),
modelled on rationals: round to the nearest thousandth and print three
decimal digits. -/
def formatFixed3 (q : ℚ) : String :=
  fmtThousandths (round (q * 1000))

/-- Rendering of `match.get('page_number', '?')` inside the f-string
(app.py line 139): an integer prints in decimal, a missing key prints `"?"`. -/
def pageNumberStr : Option Int → String
  | some n => toString n
  | none => "?"

/-- One iteration of the context-building loop (app.py lines 137-141): the
labelled block built for match number `i` (1-based) with content `c`.
`match.get('combined_score', 0)`, `match.get('pdf_name', 'Unknown')` and
`match.get('page_number', '?')` supply the defaults. -/
def contextPart (i : ℕ) (m : MatchRow) (c : String) : String :=
  "[Source " ++ toString i ++ " - " ++ m.pdf_name.getD "Unknown" ++ " - " ++
  "Page " ++ pageNumberStr m.page_number ++ " - Score: " ++
  formatFixed3 (m.combined_score.getD 0) ++ "]\n" ++ c ++ "\n"

/-- The context-building loop of `query_documents` (app.py lines 134-141),
iterating over the RPC rows with `enumerate(rpc_response.data, 1)`.
`match['content']` raises `KeyError` when the key is absent; every other
field is read with a defaulted `get`. -/
def buildContextParts : ℕ → List MatchRow → Except String (List String)
  | _, [] => Except.ok []
  | i, m :: rest =>
    match m.content with
    | none => Except.error "KeyError: content"
    | some c =>
      match buildContextParts (i + 1) rest with
      | Except.error e => Except.error e
      | Except.ok parts => Except.ok (contextPart i m c :: parts)

/-- `context_text = "\n---\n".join(context_parts)` (app.py line 143). -/
def joinContext (parts : List String) : String :=
  String.intercalate "\n---\n" parts

/-- The grounding prompt assembled by `query_documents`
(app.py lines 146-154): the triple-quoted f-string with its literal
newlines and four-space indentation. -/
def buildPrompt (contextText queryText : String) : String :=
  "\n    You are a helpful AI assistant. Answer the question based ONLY on the following context:\n    \n    CONTEXT:\n    "
  ++ contextText ++
  "\n    \n    QUESTION:\n    "
  ++ queryText ++
  "\n    "

/-- `get_chat_response` (app.py lines 25-34): calls the Gemini chat
endpoint; on success returns `response.text`, and any raised exception is
caught and converted to `"Error: " ++ str(e)`. The chat call's outcome is
the explicit argument. -/
def get_chat_response (chatOutcome : Except String String) : String :=
  match chatOutcome with
  | Except.ok t => t
  | Except.error e => "Error: " ++ e

/-- The parameter dictionary passed to the `match_documents_hybrid` RPC
(app.py lines 118-127). -/
structure RpcParams where
  query_embedding : List ℚ
  query_text : String
  match_threshold : ℚ
  match_count : ℕ
  semantic_weight : ℚ
deriving DecidableEq, Repr

/-- The concrete RPC parameters `query_documents` sends
(app.py lines 120-126): threshold `0.3`, count `5`, semantic weight `0.7`. -/
def queryRpcParams (queryVector : List ℚ) (queryText : String) : RpcParams :=
  { query_embedding := queryVector
    query_text := queryText
    match_threshold := 3 / 10
    match_count := 5
    semantic_weight := 7 / 10 }

/-- The observable outcome of one `query_documents` call: its
return-value-or-exception, whether `get_chat_response` was invoked, the
prompt sent to it (if any), the embedding-model identifier used for the
query embedding, and the RPC parameters sent (if the RPC was reached). -/
structure QueryRun where
  result : Except String String
  chatCalled : Bool
  promptSent : Option String
  embedModel : String
  rpcSent : Option RpcParams
deriving Repr

/-- `query_documents` (app.py lines 105-156). Control flow translated from
the source: (1) embed the query with model `"text-embedding-004"` — an
exception here propagates, there is no try/except; (2) call the
`match_documents_hybrid` RPC — an exception here also propagates;
(3) empty `rpc_response.data` short-circuits to the fixed no-documents
message without calling the chat model; (4) build the context (a row
without `'content'` raises `KeyError`); (5) return
`get_chat_response(full_prompt)`, which never raises. -/
def query_documents (queryText : String)
    (embedOutcome : Except String (List ℚ))
    (rpcOutcome : Except String (List MatchRow))
    (chatOutcome : Except String String) : QueryRun :=
  match embedOutcome with
  | Except.error e =>
    { result := Except.error e, chatCalled := false, promptSent := none
      embedModel := queryEmbedModelId, rpcSent := none }
  | Except.ok queryVector =>
    match rpcOutcome with
    | Except.error e =>
      { result := Except.error e, chatCalled := false, promptSent := none
        embedModel := queryEmbedModelId
        rpcSent := some (queryRpcParams queryVector queryText) }
    | Except.ok data =>
      if data.isEmpty then
        { result := Except.ok "No relevant documents found in the database to answer your question."
          chatCalled := false, promptSent := none
          embedModel := queryEmbedModelId
          rpcSent := some (queryRpcParams queryVector queryText) }
      else
        match buildContextParts 1 data with
        | Except.error e =>
          { result := Except.error e, chatCalled := false, promptSent := none
            embedModel := queryEmbedModelId
            rpcSent := some (queryRpcParams queryVector queryText) }
        | Except.ok parts =>
          let fullPrompt := buildPrompt (joinContext parts) queryText
          { result := Except.ok (get_chat_response chatOutcome)
            chatCalled := true, promptSent := some fullPrompt
            embedModel := queryEmbedModelId
            rpcSent := some (queryRpcParams queryVector queryText) }

/-! ## Chunker (spec-modelled)

The text splitter used at app.py lines 57-61 is the third-party
`RecursiveCharacterTextSplitter` from `langchain_text_splitters`, whose code
is not part of this repository's sources.  It is modelled from the spec. -/

/-- Chunker configuration `chunk_size=1000` (app.py line 58). -/
def chunk_size : ℕ := 1000

/-- Chunker configuration `chunk_overlap=150` (app.py line 59). -/
def chunk_overlap : ℕ := 150

/-- Modelled from the spec: the recursive splitting worker of the
third-party `RecursiveCharacterTextSplitter` (not part of this repository's
sources), at the character-boundary separator level of §4.2: fragments are
merged greedily until `chunk_size`, and advancing to the next chunk backs up
by `chunk_overlap` characters so consecutive chunks share a span of that
size; empty input yields the empty sequence and input no longer than
`chunk_size` yields a single chunk.  The first argument is recursion fuel;
any fuel exceeding the text length gives the modelled behaviour. -/
def chunkGo : ℕ → List Char → List (List Char)
  | 0, _ => []
  | fuel + 1, l =>
    if l.isEmpty then []
    else if l.length ≤ chunk_size then [l]
    else l.take chunk_size :: chunkGo fuel (l.drop (chunk_size - chunk_overlap))

/-- Modelled from the spec: `split_text` of the configured text splitter on a
character list (see `chunkGo`). -/
def splitTextL (l : List Char) : List (List Char) :=
  chunkGo (l.length + 1) l

/-- Modelled from the spec: `text_splitter.split_text` (app.py line 70) on
strings. -/
def splitText (s : String) : List String :=
  (splitTextL s.toList).map (fun l => String.mk l)

/-- The chunks of a chunk sequence with the overlapping spans removed: every
chunk after the first drops its leading `chunk_overlap` characters, which it
shares with its predecessor. -/
def stripOverlaps : List (List Char) → List (List Char)
  | [] => []
  | c :: rest => c :: rest.map (List.drop chunk_overlap)

/-! ## Ingestion (`upload_pdf_to_supabase`) -/

/-- A row of the `pdf_pages` table as built at app.py lines 83-88. -/
structure StoredRow where
  pdf_name : String
  page_number : ℕ
  content : String
  embedding : List ℚ
deriving DecidableEq, Repr

/-- Python truthiness of `not SUPABASE_URL` / `not SUPABASE_KEY`
(app.py line 40): a missing variable (`None`) and the empty string are both
falsy. -/
def credMissing : Option String → Bool
  | none => true
  | some s => s.isEmpty

/-- The observable outcome of one `upload_pdf_to_supabase` call: the return
value (`none` models Python's implicit `None`), each `embed_content` call
made as a `(model, contents)` pair, whether the Supabase insert was reached,
and the rows handed to it. -/
structure UploadRun where
  returned : Option String
  embedCalls : List (String × String)
  insertCalled : Bool
  insertedRows : List StoredRow
deriving Repr

/-- The rows built by the page/chunk double loop of `upload_pdf_to_supabase`
(app.py lines 65-89): for `enumerate`d page `i` with extracted text `t`,
each chunk of `t` becomes a row with `page_number = i + 1` and the chunk's
embedding, obtained from the embedding service `embedF`. -/
def ingestRows (pdfName : String) (embedF : String → List ℚ)
    (pages : List String) : List StoredRow :=
  (pages.enum).flatMap (fun p =>
    (splitText p.2).map (fun chunk =>
      { pdf_name := pdfName
        page_number := p.1 + 1
        content := chunk
        embedding := embedF chunk }))

/-- `upload_pdf_to_supabase` (app.py lines 36-103).  Control flow from the
source: missing/empty Supabase credentials return a fixed error string
before anything else happens (lines 40-41); a missing input file returns a
path error string (lines 44-45); otherwise every page is extracted
(`page.extract_text() or ""` is the `pages` argument), chunked, embedded
with model `EMBEDDING_MODEL`, and the collected rows are batch-inserted.
The external-state inputs (credentials, file existence, page texts,
embedding responses) are explicit arguments. -/
def upload_pdf_to_supabase (supabaseUrl supabaseKey : Option String)
    (pdfPath : String) (fileExists : Bool) (pdfName : String)
    (pages : List String) (embedF : String → List ℚ) : UploadRun :=
  if credMissing supabaseUrl || credMissing supabaseKey then
    { returned := some "Error: Supabase credentials not found in .env file."
      embedCalls := [], insertCalled := false, insertedRows := [] }
  else if !fileExists then
    { returned := some ("Error: File not found at " ++ pdfPath)
      embedCalls := [], insertCalled := false, insertedRows := [] }
  else
    let rows := ingestRows pdfName embedF pages
    { returned := none
      embedCalls := rows.map (fun r => (EMBEDDING_MODEL, r.content))
      insertCalled := true
      insertedRows := rows }

/-! ## Hybrid score (spec-modelled) -/

/-- Modelled from the spec: the combined score computed by the
`match_documents_hybrid` store procedure (not part of this repository's
sources), §4.4: `semantic_weight * vector_similarity +
(1 - semantic_weight) * lexical_score`. -/
def combinedScore (semanticWeight vectorSimilarity lexicalScore : ℚ) : ℚ :=
  semanticWeight * vectorSimilarity + (1 - semanticWeight) * lexicalScore

/-! ## Ordered-substring machinery for the prompt claims -/

/-- Whether `p` is a leading span of `l`, character by character. -/
def leadsList : List Char → List Char → Bool
  | [], _ => true
  | _ :: _, [] => false
  | a :: as, b :: bs => a == b && leadsList as bs

/-- The suffix of `hay` following the first occurrence of `pat`, or `none`
when `pat` does not occur. -/
def afterFirst (pat : List Char) : List Char → Option (List Char)
  | [] => if pat.isEmpty then some [] else none
  | c :: rest =>
    if leadsList pat (c :: rest) then some ((c :: rest).drop pat.length)
    else afterFirst pat rest

/-- Whether every pattern in `pats` occurs in `hay`, in the given relative
order (each match starting after the end of the previous one). -/
def inOrder : List Char → List String → Bool
  | _, [] => true
  | hay, p :: ps =>
    match afterFirst p.toList hay with
    | none => false
    | some rest => inOrder rest ps

/-- Concrete evaluation of the score formatter at `0.812`. -/
lemma formatFixed3_0812 : formatFixed3 (812 / 1000) = "0.812" := by
  unfold formatFixed3
  rw [show round ((812 : ℚ) / 1000 * 1000) = 812 from by norm_num [round_eq]]
  decide

/-- Concrete evaluation of the score formatter at the default score `0`. -/
lemma formatFixed3_zero : formatFixed3 0 = "0.000" := by
  unfold formatFixed3
  rw [show round ((0 : ℚ) * 1000) = 0 from by norm_num [round_eq]]
  decide

/-! ## Helper lemmas -/

/-- The context-building loop succeeds whenever every row carries a
`content` key. -/
lemma buildContextParts_ok (rows : List MatchRow)
    (h : ∀ r ∈ rows, r.content ≠ none) :
    ∀ i, ∃ parts, buildContextParts i rows = Except.ok parts := by
  induction rows with
  | nil => intro i; exact ⟨[], rfl⟩
  | cons m rest ih =>
    intro i
    have hm := h m (by simp)
    obtain ⟨c, hc⟩ := Option.ne_none_iff_exists'.mp hm
    obtain ⟨parts, hp⟩ := ih (fun r hr => h r (by simp [hr])) (i + 1)
    exact ⟨contextPart i m c :: parts, by simp [buildContextParts, hc, hp]⟩

/-- The context-building loop raises `KeyError` whenever some row lacks the
`content` key. -/
lemma buildContextParts_error (rows : List MatchRow)
    (h : ∃ r ∈ rows, r.content = none) :
    ∀ i, ∃ e, buildContextParts i rows = Except.error e := by
  induction rows with
  | nil => intro i; obtain ⟨r, hr, _⟩ := h; exact absurd hr (by simp)
  | cons m rest ih =>
    intro i
    cases hc : m.content with
    | none => exact ⟨"KeyError: content", by simp [buildContextParts, hc]⟩
    | some c =>
      obtain ⟨r, hr, hrc⟩ := h
      rcases List.mem_cons.mp hr with rfl | hr'
      · exact absurd hrc (by simp [hc])
      · obtain ⟨e, he⟩ := ih ⟨r, hr', hrc⟩ (i + 1)
        exact ⟨e, by simp [buildContextParts, hc, he]⟩

/-! ## Claims -/

/-- C1 (counterexample): with the embedding service unreachable on the query
path, `query_documents` does NOT return an `"Error: "` string — the
exception propagates out of the call (there is no try/except around the
`embed_content` call at app.py lines 110-113). -/
theorem c1_embed_failure_counterexample :
    (query_documents "What is agentic AI?" (Except.error "connection refused")
        (Except.ok []) (Except.ok "answer")).result
      = Except.error "connection refused"
    ∧ (query_documents "What is agentic AI?" (Except.error "connection refused")
        (Except.ok []) (Except.ok "answer")).result.isOk = false :=
  ⟨rfl, rfl⟩

/-- C1 (amended): a failure of the `embed_content` call on the query path
propagates out of `query_documents` as an exception (no string is
returned); by contrast, a failure of the chat-completion call is swallowed
and `query_documents` returns the string `"Error: "` followed by the
exception text. -/
theorem c1_error_containment (q e : String)
    (rpc : Except String (List MatchRow)) (chat : Except String String)
    (vec : List ℚ) (rows : List MatchRow) (hne : rows ≠ [])
    (hcontent : ∀ r ∈ rows, r.content ≠ none) :
    (query_documents q (Except.error e) rpc chat).result = Except.error e
    ∧ (query_documents q (Except.ok vec) (Except.ok rows)
        (Except.error e)).result = Except.ok ("Error: " ++ e) := by
  refine ⟨rfl, ?_⟩
  obtain ⟨parts, hp⟩ := buildContextParts_ok rows hcontent 1
  have hne' : rows.isEmpty = false := by
    cases rows with
    | nil => exact absurd rfl hne
    | cons a l => rfl
  simp [query_documents, hne', hp, get_chat_response]

/-- C1 (witness): the amended containment behaviour at concrete inputs. -/
theorem c1_error_containment_witness :
    (query_documents "q" (Except.error "down") (Except.ok [])
        (Except.ok "a")).result = Except.error "down"
    ∧ (query_documents "q" (Except.ok [])
        (Except.ok [⟨some "A", some 1, some 0, some "X"⟩])
        (Except.error "down")).result = Except.ok ("Error: " ++ "down") :=
  c1_error_containment "q" "down" (Except.ok []) (Except.ok "a") []
    [⟨some "A", some 1, some 0, some "X"⟩] (by simp) (by simp)

/-- C2: when the hybrid RPC returns no rows, `query_documents` returns the
fixed no-relevant-documents message and never invokes `get_chat_response`
(app.py lines 130-131). -/
theorem c2_empty_matches_skip_chat (q : String) (vec : List ℚ)
    (chat : Except String String) :
    (query_documents q (Except.ok vec) (Except.ok []) chat).result
      = Except.ok "No relevant documents found in the database to answer your question."
    ∧ (query_documents q (Except.ok vec) (Except.ok []) chat).chatCalled = false :=
  ⟨rfl, rfl⟩

/-- C3: with either Supabase credential missing from the environment,
`upload_pdf_to_supabase` returns the fixed descriptive error string, makes
no embedding call and never reaches the insert (app.py lines 40-41). -/
theorem c3_missing_credentials (url key : Option String)
    (pdfPath pdfName : String) (fe : Bool) (pages : List String)
    (embedF : String → List ℚ) (h : url = none ∨ key = none) :
    (upload_pdf_to_supabase url key pdfPath fe pdfName pages embedF).returned
      = some "Error: Supabase credentials not found in .env file."
    ∧ (upload_pdf_to_supabase url key pdfPath fe pdfName pages embedF).embedCalls = []
    ∧ (upload_pdf_to_supabase url key pdfPath fe pdfName pages embedF).insertCalled
      = false := by
  have hcred : (credMissing url || credMissing key) = true := by
    rcases h with h | h <;> subst h <;> simp [credMissing]
  simp [upload_pdf_to_supabase, hcred]

/-- C3 (witness): the credential guard at a concrete environment with the
URL missing. -/
theorem c3_missing_credentials_witness :
    (upload_pdf_to_supabase none (some "key") "p" true "doc.pdf" ["text"]
        (fun _ => [])).returned
      = some "Error: Supabase credentials not found in .env file."
    ∧ (upload_pdf_to_supabase none (some "key") "p" true "doc.pdf" ["text"]
        (fun _ => [])).embedCalls = []
    ∧ (upload_pdf_to_supabase none (some "key") "p" true "doc.pdf" ["text"]
        (fun _ => [])).insertCalled = false :=
  c3_missing_credentials none (some "key") "p" "doc.pdf" true ["text"]
    (fun _ => []) (Or.inl rfl)

/-- C7: `get_chat_response` returns the model's text on success, and on any
chat-call exception returns `"Error: "` followed by the exception text,
never propagating (app.py lines 25-34). -/
theorem c7_chat_error_to_string (t e : String) :
    get_chat_response (Except.ok t) = t
    ∧ get_chat_response (Except.error e) = "Error: " ++ e :=
  ⟨rfl, rfl⟩

/-- C4: for the single match `{pdf_name:"A", page_number:1,
combined_score:0.812, content:"X"}` and question `"Q?"`, the prompt
assembled by `query_documents` contains `"Page 1"`, the three-decimal score
`"0.812"`, the content `"X"` and the question `"Q?"`, in that relative
order (app.py lines 134-156). -/
theorem c4_prompt_contains_in_order :
    inOrder (((query_documents "Q?" (Except.ok [])
        (Except.ok [⟨some "A", some 1, some (812 / 1000), some "X"⟩])
        (Except.ok "ans")).promptSent.getD "").toList)
      ["Page 1", "0.812", "X", "Q?"] = true := by
  have hstep : (query_documents "Q?" (Except.ok [])
      (Except.ok [⟨some "A", some 1, some (812 / 1000 : ℚ), some "X"⟩])
      (Except.ok "ans")).promptSent.getD ""
      = buildPrompt
          (joinContext
            [contextPart 1 ⟨some "A", some 1, some (812 / 1000), some "X"⟩ "X"])
          "Q?" := rfl
  have hc : contextPart 1 ⟨some "A", some 1, some (812 / 1000), some "X"⟩ "X"
      = "[Source 1 - A - Page 1 - Score: 0.812]\nX\n" := by
    unfold contextPart
    dsimp only [pageNumberStr, Option.getD]
    rw [formatFixed3_0812]
    decide
  rw [hstep, hc]
  decide

/-- The embedding model recorded by `query_documents` is the fixed query
identifier, in every branch. -/
lemma query_documents_embedModel (q : String) (ev : Except String (List ℚ))
    (rpc : Except String (List MatchRow)) (chat : Except String String) :
    (query_documents q ev rpc chat).embedModel = queryEmbedModelId := by
  unfold query_documents
  rcases ev with e | vec
  · rfl
  · rcases rpc with e | data
    · rfl
    · by_cases h : data.isEmpty
      · simp [h]
      · cases hbc : buildContextParts 1 data <;> simp [h, hbc]

/-- Every embedding call made by the ingestion loop uses `EMBEDDING_MODEL`. -/
lemma upload_embedCalls_model (url key : Option String)
    (pdfPath pdfName : String) (fe : Bool) (pages : List String)
    (embedF : String → List ℚ) :
    ∀ c ∈ (upload_pdf_to_supabase url key pdfPath fe pdfName pages embedF).embedCalls,
      c.1 = EMBEDDING_MODEL := by
  intro c hc
  unfold upload_pdf_to_supabase at hc
  by_cases h1 : (credMissing url || credMissing key) = true
  · simp [h1] at hc
  · cases fe with
    | false => simp [h1] at hc
    | true =>
      simp [h1] at hc
      obtain ⟨r, _, hr⟩ := hc
      rw [← hr]

/-- C6: the embedding-model identifier of every ingestion-time embedding
call equals the identifier used for the query-time embedding, and both are
the fixed `"text-embedding-004"` (app.py lines 56, 75-78 and 110-113). -/
theorem c6_same_embedding_model (url key : Option String)
    (pdfPath pdfName : String) (fe : Bool) (pages : List String)
    (embedF : String → List ℚ) (q : String) (ev : Except String (List ℚ))
    (rpc : Except String (List MatchRow)) (chat : Except String String) :
    (∀ c ∈ (upload_pdf_to_supabase url key pdfPath fe pdfName pages
        embedF).embedCalls,
      c.1 = (query_documents q ev rpc chat).embedModel)
    ∧ (query_documents q ev rpc chat).embedModel = "text-embedding-004" := by
  constructor
  · intro c hc
    rw [query_documents_embedModel]
    exact upload_embedCalls_model url key pdfPath pdfName fe pages embedF c hc
  · rw [query_documents_embedModel]
    rfl

/-- C6 (witness): the model identifiers agree at a concrete ingestion run
(one page producing one chunk) and a concrete query. -/
theorem c6_same_embedding_model_witness :
    (("text-embedding-004", "hi")
        ∈ (upload_pdf_to_supabase (some "u") (some "k") "p" true "doc.pdf"
            ["hi"] (fun _ => [])).embedCalls)
    ∧ ("text-embedding-004", "hi").1
        = (query_documents "q" (Except.ok []) (Except.ok [])
            (Except.ok "a")).embedModel
    ∧ (query_documents "q" (Except.ok []) (Except.ok [])
        (Except.ok "a")).embedModel = "text-embedding-004" := by
  have hmem : ("text-embedding-004", "hi")
      ∈ (upload_pdf_to_supabase (some "u") (some "k") "p" true "doc.pdf"
          ["hi"] (fun _ => [])).embedCalls := by decide
  have h := c6_same_embedding_model (some "u") (some "k") "p" "doc.pdf" true
    ["hi"] (fun _ => []) "q" (Except.ok []) (Except.ok []) (Except.ok "a")
  exact ⟨hmem, h.1 ("text-embedding-004", "hi") hmem, h.2⟩

/-- C9: with the fixed semantic weight `0.7` that `query_documents` passes
to the hybrid RPC, the blended combined score is monotone in the vector
similarity for a fixed lexical score. -/
theorem c9_combined_score_monotone (vec : List ℚ) (q : String)
    (v1 v2 l : ℚ) (h : v1 ≤ v2) :
    combinedScore (queryRpcParams vec q).semantic_weight v1 l
      ≤ combinedScore (queryRpcParams vec q).semantic_weight v2 l := by
  unfold combinedScore queryRpcParams
  dsimp only
  nlinarith [h]

/-- C9 (witness): monotonicity at vector similarities `0 ≤ 1` with lexical
score `0`. -/
theorem c9_combined_score_monotone_witness :
    (0 : ℚ) ≤ 1
    ∧ combinedScore (queryRpcParams [] "q").semantic_weight 0 0
      ≤ combinedScore (queryRpcParams [] "q").semantic_weight 1 0 :=
  ⟨by decide, c9_combined_score_monotone [] "q" 0 1 0 (by decide)⟩

/-- Dropping the overlap from every chunk (head included) and concatenating
yields the input minus its first `chunk_overlap` characters. -/
lemma chunkGo_map_drop_flatten :
    ∀ fuel (l : List Char), l.length < fuel →
      ((chunkGo fuel l).map (List.drop chunk_overlap)).flatten
        = l.drop chunk_overlap := by
  intro fuel
  induction fuel with
  | zero => intro l h; exact absurd h (Nat.not_lt_zero _)
  | succ fuel ih =>
    intro l h
    by_cases he : l.isEmpty
    · rw [List.isEmpty_iff.mp he]; simp [chunkGo]
    · by_cases hlen : l.length ≤ chunk_size
      · simp [chunkGo, he, hlen]
      · have hgt : chunk_size < l.length := Nat.lt_of_not_le hlen
        have hrec : (l.drop (chunk_size - chunk_overlap)).length < fuel := by
          rw [List.length_drop]
          unfold chunk_size chunk_overlap at *
          omega
        rw [show chunkGo (fuel + 1) l
            = l.take chunk_size :: chunkGo fuel (l.drop (chunk_size - chunk_overlap))
          from by simp [chunkGo, he, hlen]]
        rw [List.map_cons, List.flatten_cons, ih _ hrec, List.drop_drop]
        have hsum : chunk_size - chunk_overlap + chunk_overlap = chunk_size := by
          unfold chunk_size chunk_overlap; omega
        rw [hsum]
        conv_rhs => rw [← List.take_append_drop chunk_size l]
        rw [List.drop_append_eq_append_drop]
        have hlt : (l.take chunk_size).length = chunk_size := by
          rw [List.length_take]
          exact Nat.min_eq_left (Nat.le_of_lt hgt)
        rw [hlt]
        have hz : chunk_overlap - chunk_size = 0 := by
          unfold chunk_size chunk_overlap; omega
        rw [hz, List.drop_zero]

/-- Concatenating the chunks with their overlapping spans removed
reconstructs the input exactly. -/
lemma chunkGo_reconstruct (l : List Char) :
    (stripOverlaps (chunkGo (l.length + 1) l)).flatten = l := by
  by_cases he : l.isEmpty
  · rw [List.isEmpty_iff.mp he]; simp [chunkGo, stripOverlaps]
  · by_cases hlen : l.length ≤ chunk_size
    · simp [chunkGo, he, hlen, stripOverlaps]
    · have hgt : chunk_size < l.length := Nat.lt_of_not_le hlen
      have hrec : (l.drop (chunk_size - chunk_overlap)).length < l.length := by
        rw [List.length_drop]
        unfold chunk_size chunk_overlap at *
        omega
      rw [show chunkGo (l.length + 1) l
          = l.take chunk_size :: chunkGo l.length (l.drop (chunk_size - chunk_overlap))
        from by simp [chunkGo, he, hlen]]
      rw [show stripOverlaps
            (l.take chunk_size :: chunkGo l.length (l.drop (chunk_size - chunk_overlap)))
          = l.take chunk_size
            :: (chunkGo l.length (l.drop (chunk_size - chunk_overlap))).map
                (List.drop chunk_overlap) from rfl]
      rw [List.flatten_cons, chunkGo_map_drop_flatten l.length _ hrec,
        List.drop_drop]
      have hsum : chunk_size - chunk_overlap + chunk_overlap = chunk_size := by
        unfold chunk_size chunk_overlap; omega
      rw [hsum, List.take_append_drop]

/-- Every chunk the splitting worker emits has length at most `chunk_size`. -/
lemma chunkGo_chunk_le :
    ∀ fuel (l : List Char), ∀ c ∈ chunkGo fuel l, c.length ≤ chunk_size := by
  intro fuel
  induction fuel with
  | zero => intro l c hc; simp [chunkGo] at hc
  | succ fuel ih =>
    intro l c hc
    by_cases he : l.isEmpty
    · simp [chunkGo, he] at hc
    · by_cases hlen : l.length ≤ chunk_size
      · simp [chunkGo, he, hlen] at hc
        exact hc ▸ hlen
      · simp only [chunkGo, he, hlen, Bool.false_eq_true, if_false, if_neg,
          List.mem_cons] at hc
        rcases hc with rfl | hc
        · rw [List.length_take]
          exact Nat.min_le_left _ _
        · exact ih _ c hc

/-- C8: for every input string, concatenating the emitted chunks after
removing the overlapping spans reconstructs the input exactly, and every
emitted chunk has length at most `chunk_size = 1000` (chunker configured at
app.py lines 57-61, applied at line 70). -/
theorem c8_chunker_roundtrip (s : String) :
    (stripOverlaps (splitTextL s.toList)).flatten = s.toList
    ∧ ∀ c ∈ splitTextL s.toList, c.length ≤ chunk_size :=
  ⟨chunkGo_reconstruct s.toList, fun c hc => chunkGo_chunk_le _ s.toList c hc⟩

/-- C8 (witness): the round-trip and the size bound at the concrete input
`"ab"`. -/
theorem c8_chunker_roundtrip_witness :
    (stripOverlaps (splitTextL "ab".toList)).flatten = "ab".toList
    ∧ (['a', 'b'] ∈ splitTextL "ab".toList)
    ∧ ['a', 'b'].length ≤ chunk_size :=
  ⟨(c8_chunker_roundtrip "ab").1, by decide,
    (c8_chunker_roundtrip "ab").2 ['a', 'b'] (by decide)⟩

set_option maxRecDepth 40000 in
/-- C5: ingesting a 2-page document whose first page extracts to 1500
characters and whose second page extracts to the empty string yields
exactly 2 chunks for page 1 and 0 chunks (hence 0 rows) for page 2, and
the run completes without error (app.py lines 57-70). -/
theorem c5_two_page_ingestion :
    (splitText (String.mk (List.replicate 1500 'a'))).length = 2
    ∧ splitText "" = []
    ∧ ((upload_pdf_to_supabase (some "u") (some "k") "p" true "doc.pdf"
        [String.mk (List.replicate 1500 'a'), ""] (fun _ => [])).insertedRows.map
          StoredRow.page_number) = [1, 1]
    ∧ (upload_pdf_to_supabase (some "u") (some "k") "p" true "doc.pdf"
        [String.mk (List.replicate 1500 'a'), ""] (fun _ => [])).returned
      = none := by
  refine ⟨by decide, rfl, by decide, rfl⟩

/-- C10: the context-building loop of `query_documents` tolerates rows
missing `combined_score`, `pdf_name` or `page_number` (defaulting them to
`0`, `"Unknown"` and `"?"`), returning a string for any row set whose rows
all carry `content`; but a row lacking `content` makes `query_documents`
raise `KeyError` instead of returning (app.py lines 134-143). -/
theorem c10_content_key_required :
    (∀ (q : String) (vec : List ℚ) (rows : List MatchRow)
        (chat : Except String String),
      (∀ r ∈ rows, r.content ≠ none) →
      ∃ s, (query_documents q (Except.ok vec) (Except.ok rows) chat).result
        = Except.ok s)
    ∧ (∀ (q : String) (vec : List ℚ) (rows : List MatchRow)
        (chat : Except String String),
      (∃ r ∈ rows, r.content = none) →
      ∃ e, (query_documents q (Except.ok vec) (Except.ok rows) chat).result
        = Except.error e)
    ∧ buildContextParts 1 [⟨none, none, none, some "X"⟩]
      = Except.ok ["[Source 1 - Unknown - Page ? - Score: 0.000]\nX\n"] := by
  refine ⟨?_, ?_, ?_⟩
  · intro q vec rows chat hcontent
    cases rows with
    | nil =>
      exact ⟨"No relevant documents found in the database to answer your question.", rfl⟩
    | cons m rest =>
      obtain ⟨parts, hp⟩ := buildContextParts_ok (m :: rest) hcontent 1
      exact ⟨get_chat_response chat, by simp [query_documents, hp]⟩
  · intro q vec rows chat hmissing
    obtain ⟨e, he⟩ := buildContextParts_error rows hmissing 1
    have hne : rows.isEmpty = false := by
      obtain ⟨r, hr, _⟩ := hmissing
      cases rows with
      | nil => exact absurd hr (by simp)
      | cons a l => rfl
    exact ⟨e, by simp [query_documents, hne, he]⟩
  · have hcp : contextPart 1 ⟨none, none, none, some "X"⟩ "X"
        = "[Source 1 - Unknown - Page ? - Score: 0.000]\nX\n" := by
      unfold contextPart
      dsimp only [pageNumberStr, Option.getD]
      rw [formatFixed3_zero]
      decide
    rw [show buildContextParts 1 [⟨none, none, none, some "X"⟩]
        = Except.ok [contextPart 1 ⟨none, none, none, some "X"⟩ "X"] from rfl,
      hcp]

/-- C10 (witness): a row with `content` present yields a returned string; a
row lacking `content` yields a raised `KeyError`. -/
theorem c10_content_key_required_witness :
    (∃ s, (query_documents "q" (Except.ok [])
        (Except.ok [⟨none, none, none, some "Y"⟩])
        (Except.ok "a")).result = Except.ok s)
    ∧ (∃ e, (query_documents "q" (Except.ok [])
        (Except.ok [⟨some "A", some 1, some 0, none⟩])
        (Except.ok "a")).result = Except.error e) :=
  ⟨c10_content_key_required.1 "q" [] [⟨none, none, none, some "Y"⟩]
      (Except.ok "a") (by simp),
    c10_content_key_required.2.1 "q" [] [⟨some "A", some 1, some 0, none⟩]
      (Except.ok "a") ⟨⟨some "A", some 1, some 0, none⟩, by simp, rfl⟩⟩
